import Mathlib

/-!
Verification of the intent-routing core of the studbotty study companion.

The development shallowly embeds the routing layer of `src/agent.py`:
the deterministic intent classifier `parse_intent`, the dispatcher
`route_and_execute`, and the bounded conversation history, together with
the keyword-call semantics of the registered tool handlers that the
dispatcher invokes.  Python strings are modelled as lists of characters
and the Python string operations used by the source (`lower`, `strip`,
substring test, `split(sep, 1)`, `replace`, `startswith`, `find`,
slicing) are defined below with Python semantics.  Fallible Python code
is embedded in `Except PyErr`.
-/

/-- Python strings are modelled as lists of characters. -/
abbrev Str := List Char

/-- Shorthand turning a Lean string literal into the model type. -/
def pys (s : String) : Str := s.data

/-- Python `str.lower` restricted to ASCII, which covers every keyword
the classifier compares against. -/
def pyLower (s : Str) : Str := s.map Char.toLower

/-- Characters removed by Python `str.strip()`. -/
def isPySpace (c : Char) : Bool :=
  c == ' ' || c == '\t' || c == '\n' || c == '\r' || c == '\x0b' || c == '\x0c'

/-- Python `str.strip()`: remove leading and trailing whitespace. -/
def pyStrip (s : Str) : Str :=
  ((s.dropWhile isPySpace).reverse.dropWhile isPySpace).reverse

/-- Python substring test `needle in hay`. -/
def pyContains : Str → Str → Bool
  | [], needle => needle.isEmpty
  | c :: t, needle => needle.isPrefixOf (c :: t) || pyContains t needle

/-- Python `hay.find(needle)`: index of the first occurrence, `none`
standing for the -1 result. -/
def pyFind : Str → Str → Option Nat
  | [], needle => if needle.isEmpty then some 0 else none
  | c :: t, needle =>
    if needle.isPrefixOf (c :: t) then some 0
    else (pyFind t needle).map (· + 1)

/-- Python `s.split(sep, 1)` with a non-empty separator: one part when
the separator is absent, the part before and the part after the first
occurrence otherwise. -/
def pySplit1 (s sep : Str) : List Str :=
  match pyFind s sep with
  | none => [s]
  | some i => [s.take i, s.drop (i + sep.length)]

/-- A Python exception, carrying its class name and its message. -/
structure PyErr where
  kind : Str
  msg : Str
deriving DecidableEq

/-- The exception raised by an out-of-range list index. -/
def IndexErr : PyErr := ⟨pys "IndexError", pys "list index out of range"⟩

/-- Python list indexing `l[i]`, which raises `IndexError` when `i` is
out of range. -/
def pyIndex (l : List Str) (i : Nat) : Except PyErr Str :=
  match l[i]? with
  | some v => Except.ok v
  | none => Except.error IndexErr

/-- Fuelled worker for `pyReplace`; the fuel is an upper bound on the
number of characters still to be scanned. -/
def pyReplaceAux (old new : Str) : Nat → Str → Str
  | 0, s => s
  | _ + 1, [] => []
  | fuel + 1, c :: t =>
    if old.isPrefixOf (c :: t) then
      new ++ pyReplaceAux old new fuel (t.drop (old.length - 1))
    else
      c :: pyReplaceAux old new fuel t

/-- Python `s.replace(old, new)` for non-empty `old`: replace every
occurrence left to right without rescanning the replacement. -/
def pyReplace (s old new : Str) : Str := pyReplaceAux old new s.length s

/-- A chain of Python `replace(o, "")` calls applied left to right, the
shape every keyword-stripping line of the classifier uses. -/
def pyReplaceAll (s : Str) (olds : List Str) : Str :=
  olds.foldl (fun acc o => pyReplace acc o []) s

/-- First element of `ps` that is a Python `startswith` match for `lo`;
models a `for` loop with `break` over candidate leading phrases. -/
def firstStartingWith (lo : Str) (ps : List Str) : Option Str :=
  ps.find? (fun p => p.isPrefixOf lo)

/-- The f-string padding `" {s} "` used by the flashcards branch. -/
def padSpaces (s : Str) : Str := ' ' :: (s ++ [' '])

/-- A Python runtime value as far as the routing layer observes one. -/
inductive PyVal where
  | str : Str → PyVal
  | int : Int → PyVal
  | bool : Bool → PyVal
  | pynone : PyVal
  | list : List PyVal → PyVal
  | dict : List (Str × PyVal) → PyVal

/-- The `{intent, args}` record produced by the classifier
(`src/agent.py`); `args` is a Python dict in insertion order. -/
structure IntentRec where
  intent : Str
  args : List (Str × PyVal)

/-- Keyword list of the quiz branch (line 38 of `src/agent.py`). -/
def quizKeywords : List Str :=
  [pys "quiz", pys "start quiz", pys "take quiz", pys "quiz me",
   pys "make a quiz", pys "create quiz", pys "generate quiz"]

/-- Guard of the quiz branch. -/
def quizCond (lo : Str) : Bool := quizKeywords.any (fun k => pyContains lo k)

/-- The quiz intent record with its default level and count. -/
def mkQuiz (topic : Str) : IntentRec :=
  ⟨pys "quiz",
   [(pys "topic", PyVal.str topic), (pys "level", PyVal.str (pys "medium")),
    (pys "count", PyVal.int 5)]⟩

/-- Topic extraction of lines 49-52: first leading quiz phrase matched
by `startswith`, topic is the stripped remainder of the original input. -/
def quizPrefixTopic (ui lo : Str) : Str :=
  match firstStartingWith lo
      [pys "make a quiz ", pys "create quiz ", pys "generate quiz "] with
  | some p => pyStrip (ui.drop p.length)
  | none => []

/-- Topic extraction of lines 54-69 (the inner `else` of the quiz
branch), including the `split("on ", 1)[1]` accesses that can raise. -/
def quizFallbackTopic (ui lo : Str) : Except PyErr Str :=
  if pyContains lo (pys "quiz me") then
    if pyContains lo (pys "on ") then
      match pyIndex (pySplit1 ui (pys "on ")) 1 with
      | Except.error e => Except.error e
      | Except.ok t => Except.ok (pyStrip t)
    else
      Except.ok (pyStrip (pyReplace lo (pys "quiz me") []))
  else if pyContains lo (pys "take quiz") then
    if pyContains lo (pys "on ") then
      match pyIndex (pySplit1 ui (pys "on ")) 1 with
      | Except.error e => Except.error e
      | Except.ok t => Except.ok (pyStrip t)
    else
      Except.ok (pyStrip (pyReplace lo (pys "take quiz") []))
  else if pyContains lo (pys "start quiz") then
    Except.ok (pyStrip (pyReplace lo (pys "start quiz") []))
  else
    Except.ok (pyStrip (pyReplaceAll lo
      [pys "quiz", pys "start", pys "take", pys "me", pys "make a",
       pys "create", pys "generate"]))

/-- Body of the quiz branch (lines 38-71): `ui` is the original input,
`lo` its lowercased stripped form. -/
def quizBody (ui lo : Str) : Except PyErr IntentRec :=
  if pyContains lo (pys "on ") then
    match pyIndex (pySplit1 ui (pys "on ")) 1 with
    | Except.error e => Except.error e
    | Except.ok t => Except.ok (mkQuiz (pyStrip t))
  else if pyContains lo (pys "about ") then
    match pyIndex (pySplit1 ui (pys "about ")) 1 with
    | Except.error e => Except.error e
    | Except.ok t => Except.ok (mkQuiz (pyStrip t))
  else if pyContains lo (pys "make a quiz") || pyContains lo (pys "create quiz")
      || pyContains lo (pys "generate quiz") then
    Except.ok (mkQuiz (quizPrefixTopic ui lo))
  else
    match quizFallbackTopic ui lo with
    | Except.error e => Except.error e
    | Except.ok t => Except.ok (mkQuiz t)

/-- Keyword list shared by both flashcards branches (lines 72 and 112). -/
def flashKeywords : List Str :=
  [pys "flashcards", pys "flashcard", pys "anki", pys "study cards"]

/-- Guard of both flashcards branches. -/
def flashCond (lo : Str) : Bool := flashKeywords.any (fun k => pyContains lo k)

/-- The list-command test inside the flashcards branches. -/
def listCmdCond (lo : Str) : Bool :=
  [pys "list", pys "show", pys "display"].any (fun c => pyContains lo c)

/-- The flashcards list record (deck None). -/
def mkFlashList : IntentRec :=
  ⟨pys "flashcards",
   [(pys "action", PyVal.str (pys "list")), (pys "deck", PyVal.pynone)]⟩

/-- The flashcards generate record. -/
def mkFlashGen (topic : Str) : IntentRec :=
  ⟨pys "flashcards",
   [(pys "action", PyVal.str (pys "generate")), (pys "topic", PyVal.str topic)]⟩

/-- Topic extraction of lines 92-97 of the first flashcards branch. -/
def flashPrefixTopic1 (ui lo : Str) : Str :=
  match firstStartingWith lo [pys "create ", pys "make ", pys "generate "] with
  | some p =>
    pyStrip (pyReplaceAll (pyStrip (ui.drop p.length))
      [pys "flashcards", pys "flashcard", pys "anki", pys "study cards",
       pys "cards"])
  | none => []

/-- Body of the first flashcards branch (lines 72-102). -/
def flashBody1 (ui lo : Str) : Except PyErr IntentRec :=
  if listCmdCond lo then Except.ok mkFlashList
  else if pyContains (padSpaces lo) (pys " for ") then
    match pyIndex (pySplit1 ui (pys " for ")) 1 with
    | Except.error e => Except.error e
    | Except.ok t => Except.ok (mkFlashGen (pyStrip t))
  else if pyContains (padSpaces lo) (pys " about ") then
    match pyIndex (pySplit1 ui (pys " about ")) 1 with
    | Except.error e => Except.error e
    | Except.ok t => Except.ok (mkFlashGen (pyStrip t))
  else if pyContains (padSpaces lo) (pys " on ") then
    match pyIndex (pySplit1 ui (pys " on ")) 1 with
    | Except.error e => Except.error e
    | Except.ok t => Except.ok (mkFlashGen (pyStrip t))
  else if [pys "create ", pys "make ", pys "generate "].any
      (fun p => pyContains lo p) then
    Except.ok (mkFlashGen (flashPrefixTopic1 ui lo))
  else
    Except.ok (mkFlashGen (pyStrip (pyReplaceAll lo
      [pys "flashcards", pys "flashcard", pys "anki", pys "study cards",
       pys "cards", pys "create", pys "make", pys "generate"])))

/-- Topic extraction of lines 132-137 of the duplicated flashcards
branch. -/
def flashPrefixTopic2 (ui lo : Str) : Str :=
  match firstStartingWith lo [pys "create ", pys "make ", pys "generate "] with
  | some p =>
    pyStrip (pyReplaceAll (pyStrip (ui.drop p.length))
      [pys "flashcards", pys "flashcard", pys "anki", pys "study cards"])
  | none => []

/-- Body of the duplicated second flashcards branch (lines 112-142); it
differs from the first in its separator tests (no space padding) and in
the exact replacement chains. -/
def flashBody2 (ui lo : Str) : Except PyErr IntentRec :=
  if listCmdCond lo then Except.ok mkFlashList
  else if pyContains lo (pys "for ") then
    match pyIndex (pySplit1 ui (pys "for ")) 1 with
    | Except.error e => Except.error e
    | Except.ok t => Except.ok (mkFlashGen (pyStrip t))
  else if pyContains lo (pys "about ") then
    match pyIndex (pySplit1 ui (pys "about ")) 1 with
    | Except.error e => Except.error e
    | Except.ok t => Except.ok (mkFlashGen (pyStrip t))
  else if pyContains lo (pys "on ") then
    match pyIndex (pySplit1 ui (pys "on ")) 1 with
    | Except.error e => Except.error e
    | Except.ok t => Except.ok (mkFlashGen (pyStrip t))
  else if [pys "create ", pys "make ", pys "generate "].any
      (fun p => pyContains lo p) then
    Except.ok (mkFlashGen (flashPrefixTopic2 ui lo))
  else
    Except.ok (mkFlashGen (pyStrip (pyReplaceAll lo
      [pys "flashcards", pys "flashcard", pys "anki", pys "study cards",
       pys "create", pys "make", pys "generate"])))

/-- Guard of the math branch (line 103). -/
def mathCond (lo : Str) : Bool :=
  [pys "solve", pys "calculate", pys "compute", pys "math"].any
    (fun k => pyContains lo k)

/-- Body of the math branch (lines 104-105). -/
def mathBody (lo : Str) : IntentRec :=
  ⟨pys "math",
   [(pys "expression", PyVal.str (pyStrip (pyReplaceAll lo
      [pys "solve", pys "calculate", pys "compute", pys "math"])))]⟩

/-- Guard of the search branch (line 106). -/
def searchCond (lo : Str) : Bool :=
  [pys "search", pys "look up", pys "find", pys "google"].any
    (fun k => pyContains lo k)

/-- Body of the search branch (lines 107-108). -/
def searchBody (lo : Str) : IntentRec :=
  ⟨pys "search",
   [(pys "query", PyVal.str (pyStrip (pyReplaceAll lo
      [pys "search", pys "look up", pys "find", pys "google"])))]⟩

/-- Guard of the files branch (line 109). -/
def filesCond (lo : Str) : Bool :=
  [pys "read", pys "open", pys "view", pys "show file"].any
    (fun k => pyContains lo k)

/-- Body of the files branch (lines 110-111). -/
def filesBody (lo : Str) : IntentRec :=
  ⟨pys "files",
   [(pys "path", PyVal.str (pyStrip (pyReplaceAll lo
      [pys "read", pys "open", pys "view", pys "show file"])))]⟩

/-- Guard of the visualization branch (line 145). -/
def vizCond (lo : Str) : Bool :=
  [pys "visualize", pys "visualization", pys "diagram", pys "draw",
   pys "chart", pys "graph", pys "flowchart", pys "show me",
   pys "make a diagram", pys "make a chart", pys "make a graph",
   pys "make a flowchart", pys "viz", pys "viz tool", pys "create diagram",
   pys "create chart", pys "create graph", pys "create flowchart"].any
    (fun k => pyContains lo k)

/-- Extraction phrases of the visualization branch (line 148). -/
def vizExtractKeywords : List Str :=
  [pys "visualize ", pys "visualization of ", pys "visualization ",
   pys "make a visualization of ", pys "make a diagram of ",
   pys "make a diagram ", pys "diagram of ", pys "draw ", pys "chart of ",
   pys "graph of ", pys "flowchart of ", pys "show me ", pys "make a chart ",
   pys "make a graph ", pys "make a flowchart ", pys "viz ", pys "viz tool ",
   pys "create diagram ", pys "create chart ", pys "create graph ",
   pys "create flowchart "]

/-- Content extraction of lines 147-152: find the first phrase contained
in the lowercased input and keep the stripped remainder of the original
input after that occurrence, defaulting to the whole input. -/
def vizContent (ui lo : Str) : Str :=
  match vizExtractKeywords.find? (fun k => pyContains lo k) with
  | some k =>
    match pyFind lo k with
    | some idx => pyStrip (ui.drop (idx + k.length))
    | none => ui
  | none => ui

/-- The visualization intent record. -/
def mkViz (content : Str) : IntentRec :=
  ⟨pys "viz",
   [(pys "content", PyVal.str content), (pys "kind", PyVal.str (pys "mermaid"))]⟩

/-- Guard of the speech branch (line 156). -/
def ttsCond (lo : Str) : Bool :=
  [pys "speak", pys "say", pys "tts", pys "read aloud", pys "text to speech",
   pys "voice"].any (fun k => pyContains lo k)

/-- Text extraction of lines 158-162. -/
def ttsText (ui lo : Str) : Str :=
  match firstStartingWith lo
      [pys "speak ", pys "say ", pys "tts ", pys "read aloud ",
       pys "text to speech ", pys "voice "] with
  | some p => pyStrip (ui.drop p.length)
  | none => ui

/-- The speech intent record; line 163 always includes the provider
argument. -/
def mkTts (text : Str) : IntentRec :=
  ⟨pys "tts",
   [(pys "text", PyVal.str text), (pys "provider", PyVal.str (pys "local"))]⟩

/-- Guard of the question branch (line 166): `startswith` on a tuple of
question openers. -/
def questionCond (lo : Str) : Bool :=
  [pys "explain", pys "what is", pys "what are", pys "who is", pys "who are",
   pys "how does", pys "how do", pys "why"].any (fun p => p.isPrefixOf lo)

/-- The chat intent record carrying the original input as its message. -/
def mkChat (message : Str) : IntentRec :=
  ⟨pys "chat", [(pys "message", PyVal.str message)]⟩

/-- The deterministic classifier, transcribed from
`Agent.parse_intent` (lines 30-172 of `src/agent.py`): an ordered
first-match-wins chain of keyword branches over the lowercased stripped
input.  The body of the Python method reads no attribute of the agent,
so it is embedded as a function of the input alone. -/
def parse_intent (user_input : Str) : Except PyErr IntentRec :=
  let lo := pyStrip (pyLower user_input)
  if quizCond lo then quizBody user_input lo
  else if flashCond lo then flashBody1 user_input lo
  else if mathCond lo then Except.ok (mathBody lo)
  else if searchCond lo then Except.ok (searchBody lo)
  else if filesCond lo then Except.ok (filesBody lo)
  else if flashCond lo then flashBody2 user_input lo
  else if vizCond lo then Except.ok (mkViz (vizContent user_input lo))
  else if ttsCond lo then Except.ok (mkTts (ttsText user_input lo))
  else if questionCond lo then Except.ok (mkChat user_input)
  else Except.ok (mkChat user_input)

/-- The classifier with the duplicated second flashcards branch (lines
112-142) removed; used to state that the removed branch is dead code. -/
def parse_intent_noDead (user_input : Str) : Except PyErr IntentRec :=
  let lo := pyStrip (pyLower user_input)
  if quizCond lo then quizBody user_input lo
  else if flashCond lo then flashBody1 user_input lo
  else if mathCond lo then Except.ok (mathBody lo)
  else if searchCond lo then Except.ok (searchBody lo)
  else if filesCond lo then Except.ok (filesBody lo)
  else if vizCond lo then Except.ok (mkViz (vizContent user_input lo))
  else if ttsCond lo then Except.ok (mkTts (ttsText user_input lo))
  else if questionCond lo then Except.ok (mkChat user_input)
  else Except.ok (mkChat user_input)

/-- Argument dictionaries, in insertion order. -/
abbrev ArgsMap := List (Str × PyVal)

/-- A conversation turn as stored by the agent: the Python dict with
keys role and content. -/
abbrev Turn := List (Str × PyVal)

/-- A registered tool handler: the keyword parameter names of its
`execute` method in signature order, the subset without defaults, a
flag for a catch-all keyword parameter, and the body.  The body stands
for the external effects of the concrete tool and is irrelevant to the
routing behavior proved here. -/
structure Handler where
  params : List Str
  required : List Str
  varKw : Bool
  run : ArgsMap → Except PyErr PyVal

/-- The agent state of `src/agent.py`: the tool registry dict and the
conversation history list. -/
structure Agent where
  tools : List (Str × Handler)
  conversation_history : List Turn

/-- The exception raised when a keyword argument matches no parameter. -/
def unexpectedKwErr (k : Str) : PyErr :=
  ⟨pys "TypeError", pys "execute() got an unexpected keyword argument " ++ k⟩

/-- The exception raised when a required parameter is not supplied. -/
def missingArgErr (p : Str) : PyErr :=
  ⟨pys "TypeError", pys "execute() missing required positional argument " ++ p⟩

/-- Python keyword-call semantics of `handler.execute(**args)`: with no
catch-all parameter, an argument name outside the signature raises
`TypeError` before the body runs, as does a missing required name. -/
def callTool (h : Handler) (args : ArgsMap) : Except PyErr PyVal :=
  if h.varKw then h.run args
  else
    match args.find? (fun kv => !(h.params.contains kv.1)) with
    | some kv => Except.error (unexpectedKwErr kv.1)
    | none =>
      match h.required.find? (fun p => (args.lookup p).isNone) with
      | some p => Except.error (missingArgErr p)
      | none => h.run args

/-- A call with one positional argument, bound to the first parameter. -/
def callPosOne (h : Handler) (v : PyVal) : Except PyErr PyVal :=
  match h.params with
  | [] => Except.error ⟨pys "TypeError",
      pys "execute() takes 1 positional argument but 2 were given"⟩
  | p :: _ => callTool h [(p, v)]

/-- The history dict `(role, content)` appended by the agent. -/
def mkTurn (role : Str) (content : PyVal) : Turn :=
  [(pys "role", PyVal.str role), (pys "content", content)]

/-- `Agent._add_to_conversation_history` (lines 201-215): append a user
turn and an assistant turn, then keep only the last 40 entries when the
cap is exceeded. -/
def addToConversationHistory (hist : List Turn) (userMessage botResponse : PyVal) :
    List Turn :=
  let g := hist ++ [mkTurn (pys "user") userMessage,
                    mkTurn (pys "assistant") botResponse]
  if g.length > 40 then g.drop (g.length - 40) else g

/-- Python tail slice `l[-n:]` for a non-negative count: the whole list
when `n` is zero (minus zero is zero), the last `n` elements otherwise. -/
def pyTailSlice (l : List Turn) (n : Nat) : List Turn :=
  if n = 0 then l else l.drop (l.length - n)

/-- `Agent.get_conversation_context` (lines 217-220). -/
def getConversationContext (hist : List Turn) (maxMessages : Nat) : List Turn :=
  if hist.isEmpty then [] else pyTailSlice hist maxMessages

/-- The dict built by `Agent.get_enhanced_chat_context` (lines 222-229). -/
structure EnhCtx where
  conversation_history : List Turn
  enhanced_context : PyVal

/-- `Agent.get_enhanced_chat_context` with its default of 10 messages;
the context manager call is an effectful tool call whose failure
propagates to the router boundary. -/
def get_enhanced_chat_context (ag : Agent) (maxMessages : Nat) :
    Except PyErr EnhCtx :=
  match ag.tools.lookup (pys "context_manager") with
  | none =>
    Except.ok ⟨getConversationContext ag.conversation_history maxMessages,
               PyVal.pynone⟩
  | some cm =>
    match callPosOne cm (PyVal.str (pys "get_enhanced_context")) with
    | Except.error e => Except.error e
    | Except.ok v =>
      Except.ok ⟨getConversationContext ag.conversation_history maxMessages, v⟩

/-- Python dict update `m[k] = v` keeping insertion order: overwrite in
place when the key exists, append otherwise. -/
def setKey : ArgsMap → Str → PyVal → ArgsMap
  | [], k, v => [(k, v)]
  | kv :: t, k, v => if kv.1 == k then (k, v) :: t else kv :: setKey t k v

/-- Python `m.get(k, d)`. -/
def pyGet (m : ArgsMap) (k : Str) (d : PyVal) : PyVal :=
  match m.lookup k with
  | some v => v
  | none => d

/-- The conversation context value passed to the chat tool: the history
as a Python list of dicts. -/
def turnsVal (ts : List Turn) : PyVal := PyVal.list (ts.map PyVal.dict)

/-- The argument dict built for the chat tool (lines 186-190):
`{**args, conversation_context: ..., use_enhanced_context: True}`. -/
def chatArgsOf (args : ArgsMap) (ctxTurns : List Turn) : ArgsMap :=
  setKey (setKey args (pys "conversation_context") (turnsVal ctxTurns))
    (pys "use_enhanced_context") (PyVal.bool true)

/-- The user-visible error string the router builds from a caught
exception (line 199). -/
def errorResult (e : PyErr) : PyVal := PyVal.str (pys "Error: " ++ e.msg)

/-- `Agent.route_and_execute` (lines 174-199): look the intent up in
the registry; for the chat intent build the enhanced argument dict,
invoke the handler and append the turn to the history; for other
intents invoke the handler directly; convert any exception into an
error string; fall through to the Python None result when the intent is
not registered. -/
def route_and_execute (ag : Agent) (intentData : IntentRec) : PyVal × Agent :=
  let args := intentData.args
  match ag.tools.lookup intentData.intent with
  | none => (PyVal.pynone, ag)
  | some h =>
    if intentData.intent == pys "chat" then
      match get_enhanced_chat_context ag 10 with
      | Except.error e => (errorResult e, ag)
      | Except.ok ctx =>
        match callTool h (chatArgsOf args ctx.conversation_history) with
        | Except.error e => (errorResult e, ag)
        | Except.ok result =>
          (result,
           { ag with conversation_history :=
              (addToConversationHistory ag.conversation_history
                (pyGet args (pys "message") (PyVal.str [])) result) })
    else
      match callTool h args with
      | Except.error e => (errorResult e, ag)
      | Except.ok result => (result, ag)

/-- The classifier as the method of the agent; its Python body reads no
attribute of `self`, which the embedding makes explicit. -/
def Agent.parseIntent (_self : Agent) (user_input : Str) :
    Except PyErr IntentRec :=
  parse_intent user_input

/-- The registry built by `Agent.register_tools` (lines 14-24), with
the parameter signatures of each `execute` method from `src/tools`;
the bodies are abstract since every tool delegates to an external
service. -/
def initAgent (runs : Str → ArgsMap → Except PyErr PyVal) : Agent where
  tools :=
    [(pys "quiz",
      ⟨[pys "topic", pys "level", pys "count"], [pys "topic"], false,
       runs (pys "quiz")⟩),
     (pys "math",
      ⟨[pys "expression"], [pys "expression"], false, runs (pys "math")⟩),
     (pys "viz",
      ⟨[pys "kind", pys "content"], [pys "kind", pys "content"], false,
       runs (pys "viz")⟩),
     (pys "search",
      ⟨[pys "query"], [pys "query"], false, runs (pys "search")⟩),
     (pys "files",
      ⟨[pys "path"], [pys "path"], false, runs (pys "files")⟩),
     (pys "flashcards", ⟨[], [], true, runs (pys "flashcards")⟩),
     (pys "persist",
      ⟨[pys "key", pys "value"], [pys "key", pys "value"], false,
       runs (pys "persist")⟩),
     (pys "chat",
      ⟨[pys "message", pys "conversation_context", pys "use_enhanced_context"],
       [pys "message"], false, runs (pys "chat")⟩),
     (pys "tts",
      ⟨[pys "text", pys "voice", pys "speed", pys "volume",
        pys "save_to_file", pys "filename", pys "format"],
       [pys "text"], false, runs (pys "tts")⟩),
     (pys "context_manager",
      ⟨[pys "action", pys "key", pys "value", pys "topic",
        pys "context_length"],
       [pys "action"], false, runs (pys "context_manager")⟩)]
  conversation_history := []

/-- The last `n` elements of a list, as the Python slice `l[-n:]`
computes them for positive `n`. -/
def lastN {α : Type _} (l : List α) (n : Nat) : List α :=
  l.drop (l.length - n)

/-- The turn dicts appended by a sequence of history additions. -/
def entriesOf : List (PyVal × PyVal) → List Turn
  | [] => []
  | p :: ps =>
    mkTurn (pys "user") p.1 :: mkTurn (pys "assistant") p.2 :: entriesOf ps

/-- The history after a sequence of `_add_to_conversation_history`
calls starting from the empty history of a fresh agent. -/
def historyAfter (ps : List (PyVal × PyVal)) : List Turn :=
  ps.foldl (fun acc p => addToConversationHistory acc p.1 p.2) []

/-- A sample exchange used to instantiate the history theorems. -/
def demoPairs : List (PyVal × PyVal) :=
  [(PyVal.str (pys "hi"), PyVal.str (pys "hello"))]

/-- A registry entry whose body always raises, used to instantiate the
isolation theorem. -/
def failingHandler : Handler :=
  ⟨[pys "expression"], [pys "expression"], false,
   fun _ => Except.error ⟨pys "RuntimeError", pys "math backend down"⟩⟩

/-- A one-tool agent whose math handler raises. -/
def agFail : Agent := ⟨[(pys "math", failingHandler)], []⟩

/-- A chat handler that succeeds with a fixed reply, used to
instantiate the chat path of the router theorems. -/
def chatOkHandler : Handler :=
  ⟨[pys "message", pys "conversation_context", pys "use_enhanced_context"],
   [pys "message"], false, fun _ => Except.ok (PyVal.str (pys "hello there"))⟩

/-- A one-tool agent with a succeeding chat handler and empty history. -/
def agChat : Agent := ⟨[(pys "chat", chatOkHandler)], []⟩

/-- A concrete chat intent record. -/
def dChat : IntentRec := ⟨pys "chat", [(pys "message", PyVal.str (pys "hi"))]⟩

theorem lastN_length_le {α : Type _} (l : List α) (n : Nat) :
    (lastN l n).length ≤ n := by
  simp only [lastN, List.length_drop]
  omega

theorem lastN_of_length_le {α : Type _} (l : List α) (n : Nat)
    (h : l.length ≤ n) : lastN l n = l := by
  simp [lastN, Nat.sub_eq_zero_of_le h]

theorem lastN_append_lastN {α : Type _} (a b : List α) (n : Nat) :
    lastN (lastN a n ++ b) n = lastN (a ++ b) n := by
  unfold lastN
  rw [List.drop_append_eq_append_drop, List.drop_append_eq_append_drop,
    List.drop_drop]
  simp only [List.length_append, List.length_drop]
  have h1 : a.length - n + (a.length - (a.length - n) + b.length - n)
      = a.length + b.length - n := by omega
  have h2 : a.length - (a.length - n) + b.length - n - (a.length - (a.length - n))
      = a.length + b.length - n - a.length := by omega
  rw [h1, h2]

theorem addToConversationHistory_eq_lastN (hist : List Turn) (u b : PyVal) :
    addToConversationHistory hist u b
      = lastN (hist ++ [mkTurn (pys "user") u, mkTurn (pys "assistant") b]) 40 := by
  simp only [addToConversationHistory]
  split
  · rfl
  · next hle =>
    exact (lastN_of_length_le _ _ (by omega)).symm

theorem addToConversationHistory_length_le (hist : List Turn) (u b : PyVal) :
    (addToConversationHistory hist u b).length ≤ 40 := by
  rw [addToConversationHistory_eq_lastN]
  exact lastN_length_le _ _

theorem foldl_addToConversationHistory (ps : List (PyVal × PyVal)) :
    ∀ h : List Turn, h.length ≤ 40 →
      ps.foldl (fun acc p => addToConversationHistory acc p.1 p.2) h
        = lastN (h ++ entriesOf ps) 40 := by
  induction ps with
  | nil =>
    intro h hh
    simp only [List.foldl_nil, entriesOf, List.append_nil]
    exact (lastN_of_length_le h 40 hh).symm
  | cons p ps ih =>
    intro h hh
    simp only [List.foldl_cons]
    rw [ih _ (addToConversationHistory_length_le h p.1 p.2),
      addToConversationHistory_eq_lastN, lastN_append_lastN,
      List.append_assoc]
    rfl

/-- C1.  The claim states that routing an intent absent from the tool
registry returns a user-visible error value naming the missing tool.
The code instead falls out of the `try` block with no `else`, so
`route_and_execute` returns the Python `None` value — not an error
string — while indeed not raising and leaving the whole agent state,
history included, unchanged.  The theorem evaluates the router of the
fully registered agent at an unregistered intent name. -/
theorem c1_unknown_tool_returns_none
    (runs : Str → ArgsMap → Except PyErr PyVal) :
    route_and_execute (initAgent runs) ⟨pys "nonexistent", []⟩
        = (PyVal.pynone, initAgent runs)
    ∧ ∀ s : Str,
        (route_and_execute (initAgent runs) ⟨pys "nonexistent", []⟩).1
          ≠ PyVal.str s := by
  refine ⟨rfl, ?_⟩
  intro s h
  exact PyVal.noConfusion h

/-- C2.  The claim states that `parse_intent` never raises.  The code
raises `IndexError` on the input below: the branch guard tests the
lowercased text for the substring on-and-space, but the extraction
splits the original-case text, where that substring does not occur, and
then indexes the absent second part. -/
theorem c2_parse_intent_raises_on_case_mismatch :
    parse_intent (pys "quiz me ON history")
      = Except.error ⟨pys "IndexError", pys "list index out of range"⟩ := by
  rfl

/-- C6.  On the exact input quiz me on world war 2, the deterministic
classifier returns the quiz intent with topic world war 2, level
medium and count 5. -/
theorem c6_quiz_world_war_two :
    parse_intent (pys "quiz me on world war 2")
      = Except.ok ⟨pys "quiz",
          [(pys "topic", PyVal.str (pys "world war 2")),
           (pys "level", PyVal.str (pys "medium")),
           (pys "count", PyVal.int 5)]⟩ := by
  rfl

/-- C7.  On the exact input create flashcards for organic chemistry,
the deterministic classifier returns the flashcards intent with action
generate and topic organic chemistry. -/
theorem c7_flashcards_organic_chemistry :
    parse_intent (pys "create flashcards for organic chemistry")
      = Except.ok ⟨pys "flashcards",
          [(pys "action", PyVal.str (pys "generate")),
           (pys "topic", PyVal.str (pys "organic chemistry"))]⟩ := by
  rfl

/-- C8.  The deterministic classifier is a pure function of its input:
its result does not depend on the agent it is invoked on, and routing
any intent in between (the only operation that mutates agent state)
does not change how a later input is classified. -/
theorem c8_classifier_stateless :
    (∀ (a₁ a₂ : Agent) (s : Str), a₁.parseIntent s = a₂.parseIntent s)
    ∧ ∀ (ag : Agent) (d : IntentRec) (s : Str),
        ((route_and_execute ag d).2).parseIntent s = ag.parseIntent s :=
  ⟨fun _ _ _ => rfl, fun _ _ _ => rfl⟩

/-- C9.  The duplicated second flashcards branch is dead code: the
classifier with that branch removed agrees with the classifier as
written on every input, because the identical guard of the first
flashcards branch is tested earlier in the same if-elif chain. -/
theorem c9_dead_flashcards_branch :
    ∀ s : Str, parse_intent s = parse_intent_noDead s := by
  intro s
  unfold parse_intent parse_intent_noDead
  cases h : flashCond (pyStrip (pyLower s)) <;> simp [h]

/-- C4 counterexample.  The claim quantifies over every requested count
`n`, but for `n = 0` on a non-empty history the code returns the whole
history (the Python slice with index minus zero is the full list)
rather than zero entries: after one append the history has two entries
and `get_conversation_context 0` returns both. -/
theorem c4_counterexample :
    getConversationContext (historyAfter demoPairs) 0 = historyAfter demoPairs
    ∧ (historyAfter demoPairs).length = 2 :=
  ⟨rfl, rfl⟩

/-- C4 (amended to requested counts of at least one).  After any
sequence of appends from the empty history the conversation history
has at most 40 entries and equals the last 40 of all appended entries
in append order (FIFO eviction), and for `n ≥ 1` the retrieved context
is exactly the last `n` entries of the history in order. -/
theorem c4_history_cap_and_context (ps : List (PyVal × PyVal)) (n : Nat)
    (hn : 1 ≤ n) :
    (historyAfter ps).length ≤ 40
    ∧ historyAfter ps = lastN (entriesOf ps) 40
    ∧ getConversationContext (historyAfter ps) n = lastN (historyAfter ps) n := by
  have hmain : historyAfter ps = lastN (entriesOf ps) 40 := by
    unfold historyAfter
    rw [foldl_addToConversationHistory ps [] (by simp)]
    rfl
  refine ⟨by rw [hmain]; exact lastN_length_le _ _, hmain, ?_⟩
  unfold getConversationContext
  by_cases hemp : (historyAfter ps).isEmpty
  · rw [if_pos hemp, List.isEmpty_iff.mp hemp]
    simp [lastN]
  · rw [if_neg hemp]
    unfold pyTailSlice
    rw [if_neg (by omega)]
    rfl

/-- Witness for C4 at one appended exchange and a requested count of
one. -/
theorem c4_witness :
    1 ≤ 1
    ∧ ((historyAfter demoPairs).length ≤ 40
      ∧ historyAfter demoPairs = lastN (entriesOf demoPairs) 40
      ∧ getConversationContext (historyAfter demoPairs) 1
          = lastN (historyAfter demoPairs) 1) :=
  ⟨Nat.le_refl 1, c4_history_cap_and_context demoPairs 1 (Nat.le_refl 1)⟩

/-- C3.  An exception raised by the handler a routed intent resolves to
is caught at the router boundary: the router returns the string Error
followed by the exception message, and the agent — registry and
conversation history alike — is returned unchanged, so a later turn
starts from the same state as if the failed turn had not happened.
Both dispatch paths are covered: the plain path and the chat path with
its enhanced argument dict. -/
theorem c3_handler_exception_isolated (ag : Agent) (d : IntentRec)
    (h : Handler) (e : PyErr) (hl : ag.tools.lookup d.intent = some h) :
    (d.intent ≠ pys "chat" → callTool h d.args = Except.error e →
      route_and_execute ag d = (PyVal.str (pys "Error: " ++ e.msg), ag))
    ∧ ∀ ctx : EnhCtx, d.intent = pys "chat" →
        get_enhanced_chat_context ag 10 = Except.ok ctx →
        callTool h (chatArgsOf d.args ctx.conversation_history)
          = Except.error e →
        route_and_execute ag d = (PyVal.str (pys "Error: " ++ e.msg), ag) := by
  constructor
  · intro hne hcall
    have hb : (d.intent == pys "chat") = false := beq_eq_false_iff_ne.mpr hne
    simp [route_and_execute, hl, hb, hcall, errorResult]
  · intro ctx hc hctx hcall
    have hb : (d.intent == pys "chat") = true := beq_iff_eq.mpr hc
    simp [route_and_execute, hl, hb, hctx, hcall, errorResult]

/-- Witness for C3: routing a math intent to the raising handler
returns the error string and the unchanged agent. -/
theorem c3_witness :
    route_and_execute agFail
        ⟨pys "math", [(pys "expression", PyVal.str (pys "1+1"))]⟩
      = (PyVal.str (pys "Error: math backend down"), agFail) :=
  (c3_handler_exception_isolated agFail
      ⟨pys "math", [(pys "expression", PyVal.str (pys "1+1"))]⟩
      failingHandler ⟨pys "RuntimeError", pys "math backend down"⟩ rfl).1
    (by decide) rfl

theorem enh_ctx_conv_history (ag : Agent) (n : Nat) (ctx : EnhCtx)
    (h : get_enhanced_chat_context ag n = Except.ok ctx) :
    ctx.conversation_history
      = getConversationContext ag.conversation_history n := by
  unfold get_enhanced_chat_context at h
  split at h
  · cases h
    rfl
  · split at h
    · cases h
    · cases h
      rfl

/-- C5.  The router touches the conversation history only on the chat
intent.  For any non-chat intent the history after routing equals the
history before, whatever the outcome.  For the chat intent, when the
context call and the handler succeed, the handler is invoked on the
argument dict extended with the ten most recent conversation turns,
and the router appends exactly the user message and the handler
response to the history. -/
theorem c5_history_only_chat (ag : Agent) (d : IntentRec) :
    (d.intent ≠ pys "chat" →
      ((route_and_execute ag d).2).conversation_history
        = ag.conversation_history)
    ∧ ∀ (h : Handler) (ctx : EnhCtx) (res : PyVal),
        d.intent = pys "chat" →
        ag.tools.lookup d.intent = some h →
        get_enhanced_chat_context ag 10 = Except.ok ctx →
        callTool h (chatArgsOf d.args ctx.conversation_history)
          = Except.ok res →
        ctx.conversation_history
            = getConversationContext ag.conversation_history 10
        ∧ route_and_execute ag d
            = (res, { ag with conversation_history :=
                (addToConversationHistory ag.conversation_history
                  (pyGet d.args (pys "message") (PyVal.str [])) res) }) := by
  constructor
  · intro hne
    have hb : (d.intent == pys "chat") = false := beq_eq_false_iff_ne.mpr hne
    cases hl : ag.tools.lookup d.intent with
    | none => simp [route_and_execute, hl]
    | some h =>
      cases hcall : callTool h d.args with
      | error e => simp [route_and_execute, hl, hb, hcall]
      | ok res => simp [route_and_execute, hl, hb, hcall]
  · intro h ctx res hc hl hctx hcall
    have hb : (d.intent == pys "chat") = true := beq_iff_eq.mpr hc
    refine ⟨enh_ctx_conv_history ag 10 ctx hctx, ?_⟩
    simp [route_and_execute, hl, hb, hctx, hcall]

/-- Witness for C5: a non-chat route leaves the history unchanged, and
a successful chat turn appends exactly the user message and reply. -/
theorem c5_witness :
    ((route_and_execute agChat ⟨pys "quiz", []⟩).2).conversation_history
        = agChat.conversation_history
    ∧ (EnhCtx.mk [] PyVal.pynone).conversation_history
        = getConversationContext agChat.conversation_history 10
    ∧ route_and_execute agChat dChat
        = (PyVal.str (pys "hello there"),
           { agChat with conversation_history :=
              (addToConversationHistory agChat.conversation_history
                (pyGet dChat.args (pys "message") (PyVal.str []))
                (PyVal.str (pys "hello there"))) }) := by
  refine ⟨(c5_history_only_chat agChat ⟨pys "quiz", []⟩).1 (by decide), ?_, ?_⟩
  · exact ((c5_history_only_chat agChat dChat).2 chatOkHandler
      ⟨[], PyVal.pynone⟩ (PyVal.str (pys "hello there")) rfl rfl rfl rfl).1
  · exact ((c5_history_only_chat agChat dChat).2 chatOkHandler
      ⟨[], PyVal.pynone⟩ (PyVal.str (pys "hello there")) rfl rfl rfl rfl).2

theorem quizBody_ok_intent (ui lo : Str) (r : IntentRec)
    (h : quizBody ui lo = Except.ok r) : r.intent = pys "quiz" := by
  unfold quizBody at h
  repeat' split at h
  all_goals cases h <;> rfl

theorem flashBody1_ok_intent (ui lo : Str) (r : IntentRec)
    (h : flashBody1 ui lo = Except.ok r) : r.intent = pys "flashcards" := by
  unfold flashBody1 at h
  repeat' split at h
  all_goals cases h <;> rfl

theorem parse_intent_tts_shape (s : Str) (r : IntentRec)
    (hp : parse_intent s = Except.ok r) (ht : r.intent = pys "tts") :
    ∃ t, r = mkTts t := by
  simp only [parse_intent] at hp
  split at hp
  · exact absurd ((quizBody_ok_intent _ _ _ hp).symm.trans ht) (by decide)
  · split at hp
    · exact absurd ((flashBody1_ok_intent _ _ _ hp).symm.trans ht) (by decide)
    · split at hp
      · cases hp
        exact absurd (show pys "math" = pys "tts" from ht) (by decide)
      · split at hp
        · cases hp
          exact absurd (show pys "search" = pys "tts" from ht) (by decide)
        · split at hp
          · cases hp
            exact absurd (show pys "files" = pys "tts" from ht) (by decide)
          · split at hp
            · cases hp
              exact absurd (show pys "viz" = pys "tts" from ht) (by decide)
            · split at hp
              · cases hp
                exact ⟨_, rfl⟩
              · split at hp
                · cases hp
                  exact absurd (show pys "chat" = pys "tts" from ht) (by decide)
                · cases hp
                  exact absurd (show pys "chat" = pys "tts" from ht) (by decide)

/-- C10.  Every input the deterministic classifier maps to the tts
intent routes to the error path: the classifier always includes the
provider key in the argument dict, the tts execute signature has no
provider parameter (and no catch-all), so the keyword call raises
`TypeError` before the tool body runs and the router converts it into
its error string, leaving the agent unchanged — a successful speech
result is impossible. -/
theorem c10_tts_route_errors (runs : Str → ArgsMap → Except PyErr PyVal)
    (s : Str) (r : IntentRec) (hp : parse_intent s = Except.ok r)
    (ht : r.intent = pys "tts") :
    route_and_execute (initAgent runs) r
      = (PyVal.str
          (pys "Error: execute() got an unexpected keyword argument provider"),
         initAgent runs) := by
  obtain ⟨t, rfl⟩ := parse_intent_tts_shape s r hp ht
  rfl

/-- Witness for C10 at the input speak hello, which the classifier
maps to the tts intent with text hello. -/
theorem c10_witness :
    route_and_execute (initAgent (fun _ _ => Except.ok PyVal.pynone))
        (mkTts (pys "hello"))
      = (PyVal.str
          (pys "Error: execute() got an unexpected keyword argument provider"),
         initAgent (fun _ _ => Except.ok PyVal.pynone)) :=
  c10_tts_route_errors (fun _ _ => Except.ok PyVal.pynone) (pys "speak hello")
    (mkTts (pys "hello")) (by rfl) (by rfl)
